import Mathlib

/-!
# AHT20 temperature/humidity sensor driver — verification development

Shallow embedding of the AHT20 I2C driver (`Sources/aht20.c` and its header)
and proofs about its measurement pipeline.

Modelling conventions:
* C `uint8_t`/`uint32_t` values become `Nat` with explicit `% 2 ^ w` where the
  source masks or where overflow could matter; the received 7-byte buffer is a
  `Frame` of seven `Nat` fields with a well-formedness predicate `< 256`.
* The C `float`/`double` conversion arithmetic is modelled over `ℚ` with the
  source's literal decimal constants taken exactly (`190.735e-6`, `95.367e-6`,
  `50.0`).  Binary floating-point rounding of the real pipeline is at most
  `2 ^ (-24)` relative (the fields are single-precision floats), i.e. below
  `2e-5` absolute on the ranges involved — orders of magnitude below every
  tolerance compared in the theorems, and irrelevant to the exactness facts
  stated (±50 is exactly representable).
* Writes through the caller's `AHT20_Data_T*` pointer are modelled by an
  output record with `Option ℚ` fields: `none` means the field was never
  written by the call.
* Bus traffic and delays of `aht20_Init` are modelled as an explicit action
  trace, with the two status bytes returned by the device as parameters.
-/

namespace AHT20

/-- Result codes of the driver (C enum `AHT20_Res_T`). -/
inductive AHT20_Res_T where
  | OK
  | ERR
  | TimeOut
  deriving DecidableEq, Repr

/-- Calibration bit position in the status byte (C `__AHT20_Flag_CAL`). -/
def AHT20_Flag_CAL : Nat := 3

/-- Busy bit position in the status byte (C `__AHT20_Flag_BUSY`). -/
def AHT20_Flag_BUSY : Nat := 7

/-- Humidity scaling factor, the C literal `95.367e-6` taken exactly
(C `__AHT20_Humi_factor`). -/
def AHT20_Humi_factor : ℚ := 95367 / 10 ^ 9

/-- Temperature scaling factor, the C literal `190.735e-6` taken exactly
(C `__AHT20_Temp_factor`). -/
def AHT20_Temp_factor : ℚ := 190735 / 10 ^ 9

/-- Temperature offset, the C literal `50.0` (C `__AHT20_Temp_const`). -/
def AHT20_Temp_const : ℚ := 50

/-- Bit-test macro `bitCheckHigh(reg, bit)` from the aKaReZa.h macro set:
true iff bit `b` of `x` is 1, i.e. `(x >> b) & 1`. -/
def bitCheckHigh (x b : Nat) : Bool := x / 2 ^ b % 2 = 1

/-- Bit-test macro `bitCheckLow(reg, bit)`: true iff bit `b` of `x` is 0. -/
def bitCheckLow (x b : Nat) : Bool := ! bitCheckHigh x b

/-- CRC-8 configuration record (C `hcrc8_T` from the external err.h library). -/
structure hcrc8_T where
  Poly : Nat
  Init : Nat
  refIn : Bool
  refOut : Bool
  xorOut : Nat

/-- The CRC-8 profile the driver configures for the AHT20
(C local `crc8_aht20` in `aht20_getData`): polynomial `0x31`, initial value
`0xFF`, no input/output reflection, no final XOR. -/
def crc8_aht20 : hcrc8_T := ⟨0x31, 0xFF, false, false, 0x00⟩

/-- Modelled from the spec: one bit-step of the MSB-first (non-reflected)
CRC-8 engine.  The generic routine `CRC8_Calc` lives in the external err.h
library (not part of this repository's sources); the spec fixes its
behaviour as the standard CRC-8 with the given polynomial: shift the 8-bit
register left, XOR-ing in the polynomial when the register's top bit was
set. -/
def crc8_bitStep (poly crc : Nat) : Nat :=
  if crc / 2 ^ 7 % 2 = 1 then (crc * 2 ^^^ poly) % 2 ^ 8 else crc * 2 % 2 ^ 8

/-- Modelled from the spec: absorbing one data byte into the CRC-8 register —
XOR the byte in, then run eight bit-steps. -/
def crc8_byteStep (poly crc b : Nat) : Nat := (crc8_bitStep poly)^[8] (crc ^^^ b)

/-- Modelled from the spec: the external CRC-8 engine
`compute(profile, bytes) -> byte` (C `CRC8_Calc`), for the non-reflected
profiles used here — fold the byte-step over the data starting from the
initial register value, then apply the final XOR. -/
def CRC8_Calc (cfg : hcrc8_T) (data : List Nat) : Nat :=
  (data.foldl (crc8_byteStep cfg.Poly) cfg.Init) ^^^ cfg.xorOut

/-- The 7-byte measurement frame read from the sensor
(C local `_rxBuffer[7]` in `aht20_getData`). -/
structure Frame where
  b0 : Nat
  b1 : Nat
  b2 : Nat
  b3 : Nat
  b4 : Nat
  b5 : Nat
  b6 : Nat
  deriving DecidableEq, Repr

/-- The frame as the byte list handed to the CRC engine. -/
def Frame.toList (rx : Frame) : List Nat :=
  [rx.b0, rx.b1, rx.b2, rx.b3, rx.b4, rx.b5, rx.b6]

/-- Well-formedness: each field models a C `uint8_t`, hence is below 256. -/
def Frame.Wf (rx : Frame) : Prop :=
  rx.b0 < 256 ∧ rx.b1 < 256 ∧ rx.b2 < 256 ∧ rx.b3 < 256 ∧
  rx.b4 < 256 ∧ rx.b5 < 256 ∧ rx.b6 < 256

instance (rx : Frame) : Decidable rx.Wf := by
  unfold Frame.Wf
  infer_instance

/-- The caller's output structure (C `AHT20_Data_T`), recording which fields
the call wrote: `none` means the storage was left untouched. -/
structure AHT20_Data_T where
  Temp : Option ℚ
  Humidity : Option ℚ
  deriving DecidableEq, Repr

/-- Raw 20-bit temperature extraction (C lines
`_Temp_I = _rxBuffer[5] + (_rxBuffer[4] << 8) + (_rxBuffer[3] << 16);`
`_Temp_I &= 0x000FFFFF;`). -/
def AHT20_raw_temp (rx : Frame) : Nat :=
  (rx.b5 + rx.b4 * 2 ^ 8 + rx.b3 * 2 ^ 16) % 2 ^ 20

/-- Raw 20-bit humidity extraction (C lines
`_Humi_I = (_rxBuffer[1] << 16) + (_rxBuffer[2] << 8) + _rxBuffer[3];`
`_Humi_I = _Humi_I >> 4;`). -/
def AHT20_raw_humi (rx : Frame) : Nat :=
  (rx.b1 * 2 ^ 16 + rx.b2 * 2 ^ 8 + rx.b3) / 2 ^ 4

/-- Temperature conversion (C `(_Temp_I * __AHT20_Temp_factor) - __AHT20_Temp_const`). -/
def AHT20_Temp_conv (r : Nat) : ℚ := r * AHT20_Temp_factor - AHT20_Temp_const

/-- Humidity conversion (C `_Humi_I * __AHT20_Humi_factor`). -/
def AHT20_Humi_conv (r : Nat) : ℚ := r * AHT20_Humi_factor

/-- The measurement reader `aht20_getData`, as a function of the 7 received
bytes: validate status flags (BUSY high or CAL low ⇒ error), validate the
CRC-8 over all 7 bytes, then extract and convert.  The bus write, delay and
read that produce `rx` are outside the decision logic modelled here. -/
def aht20_getData (rx : Frame) : AHT20_Res_T × AHT20_Data_T :=
  if bitCheckHigh rx.b0 AHT20_Flag_BUSY || bitCheckLow rx.b0 AHT20_Flag_CAL then
    (.ERR, ⟨none, none⟩)
  else if CRC8_Calc crc8_aht20 rx.toList ≠ 0x00 then
    (.ERR, ⟨none, none⟩)
  else
    (.OK, ⟨some (AHT20_Temp_conv (AHT20_raw_temp rx)),
           some (AHT20_Humi_conv (AHT20_raw_humi rx))⟩)

/-- One externally visible step of the driver: a blocking delay, a bus write,
or a write-then-read status transaction. -/
inductive Action where
  | delay (ms : Nat)
  | write (addr : Nat) (data : List Nat)
  | readStatus (addr : Nat) (cmd : List Nat)
  deriving DecidableEq, Repr

/-- Fixed AHT20 I2C address (C `__AHT20_Add`). -/
def AHT20_Add : Nat := 0x38

/-- Power-on stabilization delay in ms (C `__AHT20_AFTER_POWER_ON_DELAY`). -/
def AHT20_AFTER_POWER_ON_DELAY : Nat := 40

/-- Inter-command delay in ms (C `__AHT20_DELAY`). -/
def AHT20_DELAY : Nat := 10

/-- Calibration/initialize command bytes (C `_AHT20_CMD_Init`). -/
def AHT20_CMD_Init : List Nat := [0xBE, 0x08, 0x00]

/-- Soft-reset command byte (C `_AHT20_CMD_Reset`). -/
def AHT20_CMD_Reset : List Nat := [0xBA]

/-- Status-read command byte (C `_AHT20_CMD_Status`). -/
def AHT20_CMD_Status : List Nat := [0x71]

/-- The initializer `aht20_Init`, parametrized by the two status bytes `s1`
and `s2` the device returns to the two status reads.  Returns the result
code and the trace of delays and bus transactions performed, in order. -/
def aht20_Init (s1 s2 : Nat) : AHT20_Res_T × List Action :=
  let pre : List Action :=
    [.delay AHT20_AFTER_POWER_ON_DELAY,
     .write AHT20_Add AHT20_CMD_Reset,
     .delay AHT20_AFTER_POWER_ON_DELAY,
     .readStatus AHT20_Add AHT20_CMD_Status]
  let calib : List Action :=
    if bitCheckLow s1 AHT20_Flag_CAL then [.write AHT20_Add AHT20_CMD_Init] else []
  let post : List Action :=
    [.delay AHT20_DELAY, .readStatus AHT20_Add AHT20_CMD_Status]
  if bitCheckLow s2 AHT20_Flag_CAL then
    (.ERR, pre ++ calib ++ post)
  else
    (.OK, pre ++ calib ++ post)

/-- Frame construction per the spec's §3 layout, used for the round-trip
properties: status byte `0x18` (CAL = 1, BUSY = 0), humidity bits 19:12,
11:4 and 3:0 into bytes 1–3, temperature bits 19:16, 15:8 and 7:0 into
bytes 3–5, and the CRC-8 of bytes 0–5 appended as byte 6. -/
def packFrame (t h : Nat) : Frame :=
  let b0 : Nat := 0x18
  let b1 : Nat := h / 2 ^ 12
  let b2 : Nat := h / 2 ^ 4 % 2 ^ 8
  let b3 : Nat := h % 2 ^ 4 * 2 ^ 4 + t / 2 ^ 16
  let b4 : Nat := t / 2 ^ 8 % 2 ^ 8
  let b5 : Nat := t % 2 ^ 8
  ⟨b0, b1, b2, b3, b4, b5, CRC8_Calc crc8_aht20 [b0, b1, b2, b3, b4, b5]⟩

/-- A well-formed frame with every byte at its maximum value 255. -/
def frameAllFF : Frame := ⟨255, 255, 255, 255, 255, 255, 255⟩

/-- A frame whose status byte has the BUSY bit set. -/
def frameBusy : Frame := ⟨0x80, 0, 0, 0, 0, 0, 0⟩

/-- The all-zero frame: its status byte reports not-calibrated. -/
def frameZero : Frame := ⟨0, 0, 0, 0, 0, 0, 0⟩

/-- A frame with status `0x18` (CAL = 1, BUSY = 0), all-zero data and the
matching CRC byte `0x35`: it passes every validation. -/
def frameZeroValid : Frame := ⟨0x18, 0, 0, 0, 0, 0, 0x35⟩

/-- A frame with status `0x18` (CAL = 1, BUSY = 0) whose CRC byte is wrong. -/
def frameBadCrc : Frame := ⟨0x18, 0, 0, 0, 0, 0, 0x01⟩

/-! ## Helper lemmas -/

/-- The CRC bit-step fixes the zero register. -/
theorem crc8_bitStep_zero (poly : Nat) : crc8_bitStep poly 0 = 0 := by
  simp [crc8_bitStep]

/-- Absorbing the current register value as a data byte zeroes the register:
the initial XOR cancels it and the bit-steps keep 0 at 0. -/
theorem crc8_byteStep_self (poly c : Nat) : crc8_byteStep poly c c = 0 := by
  rw [crc8_byteStep, Nat.xor_self]
  exact Function.iterate_fixed (crc8_bitStep_zero poly) 8

/-- Appending the CRC of a byte list to that list yields CRC 0, for the
driver's profile (no final XOR). -/
theorem CRC8_Calc_append_self (l : List Nat) :
    CRC8_Calc crc8_aht20 (l ++ [CRC8_Calc crc8_aht20 l]) = 0 := by
  simp [CRC8_Calc, List.foldl_append, crc8_aht20, crc8_byteStep_self]

/-- The status-validation branch of `aht20_getData`: BUSY set or CAL clear
gives an error with no output write. -/
theorem aht20_getData_err_status (rx : Frame)
    (h : (bitCheckHigh rx.b0 AHT20_Flag_BUSY || bitCheckLow rx.b0 AHT20_Flag_CAL) = true) :
    aht20_getData rx = (.ERR, ⟨none, none⟩) := by
  rw [aht20_getData, if_pos h]

/-- The CRC-validation branch of `aht20_getData`: nonzero CRC over the frame
gives an error with no output write, whatever the status byte. -/
theorem aht20_getData_err_crc (rx : Frame)
    (h : CRC8_Calc crc8_aht20 rx.toList ≠ 0) :
    aht20_getData rx = (.ERR, ⟨none, none⟩) := by
  rw [aht20_getData]
  by_cases h1 : (bitCheckHigh rx.b0 AHT20_Flag_BUSY || bitCheckLow rx.b0 AHT20_Flag_CAL) = true
  · rw [if_pos h1]
  · rw [if_neg h1, if_pos h]

/-- The success path of `aht20_getData`: status and CRC validations passing
yield `OK` with both fields written from the extraction and conversion
pipeline. -/
theorem aht20_getData_ok (rx : Frame)
    (hs : (bitCheckHigh rx.b0 AHT20_Flag_BUSY || bitCheckLow rx.b0 AHT20_Flag_CAL) = false)
    (hc : CRC8_Calc crc8_aht20 rx.toList = 0) :
    aht20_getData rx = (.OK, ⟨some (AHT20_Temp_conv (AHT20_raw_temp rx)),
                              some (AHT20_Humi_conv (AHT20_raw_humi rx))⟩) := by
  rw [aht20_getData, if_neg (by simp [hs]), if_neg (by simp [hc])]

/-- Unpacking inverts packing for the temperature field. -/
theorem AHT20_raw_temp_packFrame (t h : Nat) (ht : t < 2 ^ 20) :
    AHT20_raw_temp (packFrame t h) = t := by
  simp only [AHT20_raw_temp, packFrame]
  omega

/-- Unpacking inverts packing for the humidity field (no 20-bit bound on `h`
is needed: the humidity path applies no mask). -/
theorem AHT20_raw_humi_packFrame (t h : Nat) (ht : t < 2 ^ 20) :
    AHT20_raw_humi (packFrame t h) = h := by
  simp only [AHT20_raw_humi, packFrame]
  omega

/-- The packed frame's byte list is the first six bytes with their CRC
appended. -/
theorem packFrame_toList (t h : Nat) :
    (packFrame t h).toList =
      [0x18, h / 2 ^ 12, h / 2 ^ 4 % 2 ^ 8, h % 2 ^ 4 * 2 ^ 4 + t / 2 ^ 16,
       t / 2 ^ 8 % 2 ^ 8, t % 2 ^ 8] ++
      [CRC8_Calc crc8_aht20
        [0x18, h / 2 ^ 12, h / 2 ^ 4 % 2 ^ 8, h % 2 ^ 4 * 2 ^ 4 + t / 2 ^ 16,
         t / 2 ^ 8 % 2 ^ 8, t % 2 ^ 8]] := by
  rfl

/-- The CRC over a packed frame is 0. -/
theorem packFrame_crc (t h : Nat) :
    CRC8_Calc crc8_aht20 (packFrame t h).toList = 0 := by
  rw [packFrame_toList]
  exact CRC8_Calc_append_self _

/-- The packed frame's status byte passes validation. -/
theorem packFrame_status (t h : Nat) :
    (bitCheckHigh (packFrame t h).b0 AHT20_Flag_BUSY ||
     bitCheckLow (packFrame t h).b0 AHT20_Flag_CAL) = false := by
  show (bitCheckHigh 0x18 AHT20_Flag_BUSY || bitCheckLow 0x18 AHT20_Flag_CAL) = false
  decide

/-- Decoding a packed frame succeeds and recovers the packed raw fields. -/
theorem aht20_getData_packFrame (t h : Nat) (ht : t < 2 ^ 20) :
    aht20_getData (packFrame t h) =
      (.OK, ⟨some (AHT20_Temp_conv t), some (AHT20_Humi_conv h)⟩) := by
  rw [aht20_getData_ok _ (packFrame_status t h) (packFrame_crc t h),
      AHT20_raw_temp_packFrame t h ht, AHT20_raw_humi_packFrame t h ht]

/-- The code's temperature conversion stays within `5e-4` of the ideal
formula `r * 200 / 2^20 - 50` on 20-bit inputs. -/
theorem AHT20_Temp_conv_close (r : Nat) (h : r < 2 ^ 20) :
    |AHT20_Temp_conv r - ((r : ℚ) * 200 / 2 ^ 20 - 50)| ≤ 5 / 10 ^ 4 := by
  have h1 : (r : ℚ) ≤ 1048575 := by exact_mod_cast Nat.le_of_lt_succ h
  have h0 : (0 : ℚ) ≤ r := Nat.cast_nonneg r
  rw [AHT20_Temp_conv, AHT20_Temp_factor, AHT20_Temp_const, abs_le]
  constructor <;> nlinarith

/-- The code's humidity conversion stays within `5e-4` of the ideal formula
`r * 100 / 2^20` on 20-bit inputs. -/
theorem AHT20_Humi_conv_close (r : Nat) (h : r < 2 ^ 20) :
    |AHT20_Humi_conv r - (r : ℚ) * 100 / 2 ^ 20| ≤ 5 / 10 ^ 4 := by
  have h1 : (r : ℚ) ≤ 1048575 := by exact_mod_cast Nat.le_of_lt_succ h
  have h0 : (0 : ℚ) ≤ r := Nat.cast_nonneg r
  rw [AHT20_Humi_conv, AHT20_Humi_factor, abs_le]
  constructor <;> nlinarith

/-- Range of the code's temperature conversion on 20-bit inputs. -/
theorem AHT20_Temp_conv_range (r : Nat) (h : r < 2 ^ 20) :
    -50 ≤ AHT20_Temp_conv r ∧ AHT20_Temp_conv r < 150 := by
  have h1 : (r : ℚ) ≤ 1048575 := by exact_mod_cast Nat.le_of_lt_succ h
  have h0 : (0 : ℚ) ≤ r := Nat.cast_nonneg r
  rw [AHT20_Temp_conv, AHT20_Temp_factor, AHT20_Temp_const]
  constructor <;> nlinarith

/-- Range of the code's humidity conversion on 20-bit inputs. -/
theorem AHT20_Humi_conv_range (r : Nat) (h : r < 2 ^ 20) :
    0 ≤ AHT20_Humi_conv r ∧ AHT20_Humi_conv r < 100 := by
  have h1 : (r : ℚ) ≤ 1048575 := by exact_mod_cast Nat.le_of_lt_succ h
  have h0 : (0 : ℚ) ≤ r := Nat.cast_nonneg r
  rw [AHT20_Humi_conv, AHT20_Humi_factor]
  constructor <;> nlinarith

/-- The masked temperature combination is below `2^20` for any frame. -/
theorem AHT20_raw_temp_lt (rx : Frame) : AHT20_raw_temp rx < 2 ^ 20 :=
  Nat.mod_lt _ (by norm_num)

/-- The shifted humidity combination is below `2^20` for any well-formed
frame. -/
theorem AHT20_raw_humi_lt (rx : Frame) (h : rx.Wf) : AHT20_raw_humi rx < 2 ^ 20 := by
  obtain ⟨-, h1, h2, h3, -, -, -⟩ := h
  rw [AHT20_raw_humi]
  omega

/-! ## Claim theorems -/

/-- Claim C1, corrected (amended): for every pair of 20-bit raw values,
packing them into a frame with a correct CRC and decoding with
`aht20_getData` returns `OK` and stores `raw_temp * 190.735e-6 - 50` and
`raw_humidity * 95.367e-6` — the code's decimal-rounded factors, not exactly
`200 / 2^20` and `100 / 2^20` — and these stored values agree with the ideal
formulas `raw_temp * (200 / 2^20) - 50` and `raw_humidity * (100 / 2^20)`
within `5e-4` (the claimed `1e-4` tolerance fails, see the
counterexample). -/
theorem C1_roundtrip (t h : Nat) (ht : t < 2 ^ 20) (hh : h < 2 ^ 20) :
    aht20_getData (packFrame t h) =
      (.OK, ⟨some (AHT20_Temp_conv t), some (AHT20_Humi_conv h)⟩) ∧
    |AHT20_Temp_conv t - ((t : ℚ) * 200 / 2 ^ 20 - 50)| ≤ 5 / 10 ^ 4 ∧
    |AHT20_Humi_conv h - (h : ℚ) * 100 / 2 ^ 20| ≤ 5 / 10 ^ 4 :=
  ⟨aht20_getData_packFrame t h ht, AHT20_Temp_conv_close t ht,
   AHT20_Humi_conv_close h hh⟩

/-- Witness for C1 at `t = h = 0`. -/
theorem C1_roundtrip_witness :
    (0 : Nat) < 2 ^ 20 ∧
    (aht20_getData (packFrame 0 0) =
       (.OK, ⟨some (AHT20_Temp_conv 0), some (AHT20_Humi_conv 0)⟩) ∧
     |AHT20_Temp_conv 0 - (((0 : Nat) : ℚ) * 200 / 2 ^ 20 - 50)| ≤ 5 / 10 ^ 4 ∧
     |AHT20_Humi_conv 0 - ((0 : Nat) : ℚ) * 100 / 2 ^ 20| ≤ 5 / 10 ^ 4) :=
  ⟨by norm_num, C1_roundtrip 0 0 (by norm_num) (by norm_num)⟩

/-- Counterexample to C1 as stated: at `h_raw = 0xFFFFF` the stored humidity
differs from `h_raw * 100 / 2^20` by about `4.53e-4`, exceeding the claimed
`1e-4` tolerance. -/
theorem C1_tolerance_cex :
    aht20_getData (packFrame 0 1048575) =
      (.OK, ⟨some (AHT20_Temp_conv 0), some (AHT20_Humi_conv 1048575)⟩) ∧
    ¬ |AHT20_Humi_conv 1048575 - ((1048575 : Nat) : ℚ) * 100 / 2 ^ 20| ≤ 1 / 10 ^ 4 := by
  refine ⟨aht20_getData_packFrame 0 1048575 (by norm_num), ?_⟩
  rw [AHT20_Humi_conv, AHT20_Humi_factor, abs_of_nonpos (by push_cast; norm_num)]
  push_cast
  norm_num

/-- Claim C2, confirmed: for every well-formed frame, the raw temperature
computed by `aht20_getData` is byte 3's lower nibble as bits 19:16, byte 4
as bits 15:8 and byte 5 as bits 7:0, and the raw humidity is byte 1 as bits
19:12, byte 2 as bits 11:4 and byte 3's upper nibble as bits 3:0 (the three
bytes combined into a 24-bit value and the low 4 bits dropped); on success
the output fields are the conversions of these raw values. -/
theorem C2_extraction (rx : Frame) (h : rx.Wf) :
    AHT20_raw_temp rx = rx.b3 % 2 ^ 4 * 2 ^ 16 + rx.b4 * 2 ^ 8 + rx.b5 ∧
    AHT20_raw_humi rx = rx.b1 * 2 ^ 12 + rx.b2 * 2 ^ 4 + rx.b3 / 2 ^ 4 ∧
    ((aht20_getData rx).1 = .OK →
      (aht20_getData rx).2 = ⟨some (AHT20_Temp_conv (AHT20_raw_temp rx)),
                              some (AHT20_Humi_conv (AHT20_raw_humi rx))⟩) := by
  obtain ⟨h0, h1, h2, h3, h4, h5, h6⟩ := h
  refine ⟨?_, ?_, ?_⟩
  · rw [AHT20_raw_temp]; omega
  · rw [AHT20_raw_humi]; omega
  · intro hOK
    by_cases hs : (bitCheckHigh rx.b0 AHT20_Flag_BUSY || bitCheckLow rx.b0 AHT20_Flag_CAL) = true
    · rw [aht20_getData_err_status rx hs] at hOK
      simp at hOK
    · by_cases hc : CRC8_Calc crc8_aht20 rx.toList = 0
      · rw [aht20_getData_ok rx (by simpa using hs) hc]
      · rw [aht20_getData_err_crc rx hc] at hOK
        simp at hOK

/-- Witness for C2 at the all-255 frame. -/
theorem C2_extraction_witness :
    frameAllFF.Wf ∧
    (AHT20_raw_temp frameAllFF =
       frameAllFF.b3 % 2 ^ 4 * 2 ^ 16 + frameAllFF.b4 * 2 ^ 8 + frameAllFF.b5 ∧
     AHT20_raw_humi frameAllFF =
       frameAllFF.b1 * 2 ^ 12 + frameAllFF.b2 * 2 ^ 4 + frameAllFF.b3 / 2 ^ 4 ∧
     ((aht20_getData frameAllFF).1 = .OK →
       (aht20_getData frameAllFF).2 =
         ⟨some (AHT20_Temp_conv (AHT20_raw_temp frameAllFF)),
          some (AHT20_Humi_conv (AHT20_raw_humi frameAllFF))⟩)) :=
  ⟨by decide, C2_extraction frameAllFF (by decide)⟩

/-- Claim C3, confirmed: for every frame, a nonzero CRC-8 over all 7 bytes
(polynomial 0x31, initial value 0xFF, no reflection, no final XOR) makes
`aht20_getData` return `ERR` with the output left untouched, and the
extraction/conversion path runs only when that CRC equals 0. -/
theorem C3_crc_gate (rx : Frame) :
    (CRC8_Calc crc8_aht20 rx.toList ≠ 0x00 → aht20_getData rx = (.ERR, ⟨none, none⟩)) ∧
    ((aht20_getData rx).1 = .OK → CRC8_Calc crc8_aht20 rx.toList = 0x00) := by
  constructor
  · exact aht20_getData_err_crc rx
  · intro hOK
    by_contra hc
    rw [aht20_getData_err_crc rx hc] at hOK
    simp at hOK

set_option maxRecDepth 8000 in
/-- Witness for C3 at a status-valid frame with a wrong CRC byte. -/
theorem C3_crc_gate_witness :
    CRC8_Calc crc8_aht20 frameBadCrc.toList ≠ 0x00 ∧
    aht20_getData frameBadCrc = (.ERR, ⟨none, none⟩) :=
  ⟨by decide, (C3_crc_gate frameBadCrc).1 (by decide)⟩

/-- Claim C4, confirmed: a frame with BUSY set or CALIBRATED clear makes
`aht20_getData` return `ERR` regardless of CRC and data; a frame with
BUSY = 0, CAL = 1 and CRC over all 7 bytes equal to 0 makes it return `OK`
with the output populated from the documented bit-extraction formulas. -/
theorem C4_status_gate (rx : Frame) :
    ((bitCheckHigh rx.b0 AHT20_Flag_BUSY = true ∨ bitCheckLow rx.b0 AHT20_Flag_CAL = true) →
      aht20_getData rx = (.ERR, ⟨none, none⟩)) ∧
    ((bitCheckHigh rx.b0 AHT20_Flag_BUSY = false ∧ bitCheckLow rx.b0 AHT20_Flag_CAL = false ∧
      CRC8_Calc crc8_aht20 rx.toList = 0x00) →
      aht20_getData rx = (.OK, ⟨some (AHT20_Temp_conv (AHT20_raw_temp rx)),
                                some (AHT20_Humi_conv (AHT20_raw_humi rx))⟩)) := by
  constructor
  · intro hs
    apply aht20_getData_err_status
    rcases hs with h | h <;> simp [h]
  · rintro ⟨h1, h2, hc⟩
    exact aht20_getData_ok rx (by simp [h1, h2]) hc

set_option maxRecDepth 8000 in
/-- Witness for C4 at the all-zero-data valid frame. -/
theorem C4_status_gate_witness :
    (bitCheckHigh frameZeroValid.b0 AHT20_Flag_BUSY = false ∧
     bitCheckLow frameZeroValid.b0 AHT20_Flag_CAL = false ∧
     CRC8_Calc crc8_aht20 frameZeroValid.toList = 0x00) ∧
    aht20_getData frameZeroValid =
      (.OK, ⟨some (AHT20_Temp_conv (AHT20_raw_temp frameZeroValid)),
             some (AHT20_Humi_conv (AHT20_raw_humi frameZeroValid))⟩) :=
  ⟨by decide, (C4_status_gate frameZeroValid).2 (by decide)⟩

/-- Claim C5, confirmed: `aht20_getData` writes the caller's output only on
the `OK` path — on any other result both output fields are untouched, and on
`OK` both fields are written. -/
theorem C5_writes_only_on_ok (rx : Frame) :
    ((aht20_getData rx).1 ≠ .OK → (aht20_getData rx).2 = ⟨none, none⟩) ∧
    ((aht20_getData rx).1 = .OK →
      ∃ tq hq, (aht20_getData rx).2 = ⟨some tq, some hq⟩) := by
  by_cases hs : (bitCheckHigh rx.b0 AHT20_Flag_BUSY || bitCheckLow rx.b0 AHT20_Flag_CAL) = true
  · rw [aht20_getData_err_status rx hs]
    exact ⟨fun _ => rfl, fun hOK => by simp at hOK⟩
  · by_cases hc : CRC8_Calc crc8_aht20 rx.toList = 0
    · rw [aht20_getData_ok rx (by simpa using hs) hc]
      exact ⟨fun hne => absurd rfl hne, fun _ => ⟨_, _, rfl⟩⟩
    · rw [aht20_getData_err_crc rx hc]
      exact ⟨fun _ => rfl, fun hOK => by simp at hOK⟩

/-- Witness for C5 at a busy frame. -/
theorem C5_writes_only_on_ok_witness :
    (aht20_getData frameBusy).1 ≠ .OK ∧ (aht20_getData frameBusy).2 = ⟨none, none⟩ :=
  ⟨by decide, (C5_writes_only_on_ok frameBusy).1 (by decide)⟩

/-- Claim C6, confirmed: `aht20_Init` sends the 3-byte calibration command
iff the CALIBRATED bit is clear in the first status read, performs the 10 ms
inter-command delay unconditionally, and returns `ERR` iff the CALIBRATED
bit is still clear in the second status read (`OK` otherwise). -/
theorem C6_init_behavior (s1 s2 : Nat) :
    (Action.write AHT20_Add AHT20_CMD_Init ∈ (aht20_Init s1 s2).2 ↔
      bitCheckLow s1 AHT20_Flag_CAL = true) ∧
    Action.delay AHT20_DELAY ∈ (aht20_Init s1 s2).2 ∧
    ((aht20_Init s1 s2).1 = .ERR ↔ bitCheckLow s2 AHT20_Flag_CAL = true) ∧
    ((aht20_Init s1 s2).1 = .OK ↔ bitCheckLow s2 AHT20_Flag_CAL = false) := by
  cases h1 : bitCheckLow s1 AHT20_Flag_CAL <;>
  cases h2 : bitCheckLow s2 AHT20_Flag_CAL <;>
    simp [aht20_Init, h1, h2, AHT20_Add, AHT20_CMD_Init, AHT20_CMD_Reset,
          AHT20_CMD_Status, AHT20_DELAY, AHT20_AFTER_POWER_ON_DELAY]

/-- Witness for C6 against a device answering `0x00` then `0x08`. -/
theorem C6_init_behavior_witness :
    (Action.write AHT20_Add AHT20_CMD_Init ∈ (aht20_Init 0x00 0x08).2 ↔
      bitCheckLow 0x00 AHT20_Flag_CAL = true) ∧
    Action.delay AHT20_DELAY ∈ (aht20_Init 0x00 0x08).2 ∧
    ((aht20_Init 0x00 0x08).1 = .ERR ↔ bitCheckLow 0x08 AHT20_Flag_CAL = true) ∧
    ((aht20_Init 0x00 0x08).1 = .OK ↔ bitCheckLow 0x08 AHT20_Flag_CAL = false) :=
  C6_init_behavior 0x00 0x08

/-- Claim C7, corrected (amended): raw temperature 0 converts to exactly
-50 °C; the frame `[0x18, 0x80, 0x00, 0x00, 0x00, 0x00, CRC]` decodes to
`OK` with temperature exactly -50 °C and humidity within `3e-4` of 50 % but
not exactly 50 % (the code's factor is the rounded constant `95.367e-6`);
raw `0xFFFFF` gives, unclamped, temperature exactly `149.999952625` °C
(≈ 149.99995, not ≈ 149.99981) and humidity exactly `99.999452025` %
(≈ 99.99945, not ≈ 99.99990). -/
theorem C7_numeric_vectors :
    AHT20_Temp_conv 0 = -50 ∧
    aht20_getData (packFrame 0 524288) =
      (.OK, ⟨some (AHT20_Temp_conv 0), some (AHT20_Humi_conv 524288)⟩) ∧
    |AHT20_Humi_conv 524288 - 50| ≤ 3 / 10 ^ 4 ∧
    AHT20_Humi_conv 524288 ≠ 50 ∧
    AHT20_Temp_conv 1048575 = 149999952625 / 10 ^ 9 ∧
    AHT20_Humi_conv 1048575 = 99999452025 / 10 ^ 9 := by
  refine ⟨by norm_num [AHT20_Temp_conv, AHT20_Temp_factor, AHT20_Temp_const],
          aht20_getData_packFrame 0 524288 (by norm_num), ?_, ?_, ?_, ?_⟩
  · rw [AHT20_Humi_conv, AHT20_Humi_factor,
        abs_of_nonpos (by push_cast; norm_num)]
    push_cast
    norm_num
  · rw [AHT20_Humi_conv, AHT20_Humi_factor]
    push_cast
    norm_num
  · rw [AHT20_Temp_conv, AHT20_Temp_factor, AHT20_Temp_const]
    push_cast
    norm_num
  · rw [AHT20_Humi_conv, AHT20_Humi_factor]
    push_cast
    norm_num

set_option maxRecDepth 8000 in
/-- Counterexample to C7 as stated: the spec's scenario frame (here
`packFrame 0 524288`, concretely `[0x18, 0x80, 0x00, 0x00, 0x00, 0x00,
0x86]`) decodes with humidity different from exactly 50 %. -/
theorem C7_exact_humidity_cex :
    packFrame 0 524288 = ⟨0x18, 0x80, 0x00, 0x00, 0x00, 0x00, 0x86⟩ ∧
    aht20_getData (packFrame 0 524288) =
      (.OK, ⟨some (AHT20_Temp_conv 0), some (AHT20_Humi_conv 524288)⟩) ∧
    AHT20_Humi_conv 524288 ≠ 50 := by
  refine ⟨by decide, aht20_getData_packFrame 0 524288 (by norm_num), ?_⟩
  rw [AHT20_Humi_conv, AHT20_Humi_factor]
  push_cast
  norm_num

/-- Claim C8, confirmed: neither `aht20_Init` nor `aht20_getData` ever
returns `TimeOut` from its own logic — for every pair of status bytes and
every frame the result is `OK` or `ERR`. -/
theorem C8_no_timeout :
    (∀ s1 s2 : Nat, (aht20_Init s1 s2).1 ≠ .TimeOut) ∧
    (∀ rx : Frame, (aht20_getData rx).1 ≠ .TimeOut) := by
  constructor
  · intro s1 s2
    cases h2 : bitCheckLow s2 AHT20_Flag_CAL <;> simp [aht20_Init, h2]
  · intro rx
    by_cases hs : (bitCheckHigh rx.b0 AHT20_Flag_BUSY || bitCheckLow rx.b0 AHT20_Flag_CAL) = true
    · rw [aht20_getData_err_status rx hs]; simp
    · by_cases hc : CRC8_Calc crc8_aht20 rx.toList = 0
      · rw [aht20_getData_ok rx (by simpa using hs) hc]; simp
      · rw [aht20_getData_err_crc rx hc]; simp

/-- Witness for C8 at concrete inputs. -/
theorem C8_no_timeout_witness :
    (aht20_Init 0 0).1 ≠ .TimeOut ∧ (aht20_getData frameBusy).1 ≠ .TimeOut :=
  ⟨C8_no_timeout.1 0 0, C8_no_timeout.2 frameBusy⟩

/-- Claim C9, confirmed: whenever the frame reports not-calibrated, or any
status or CRC validation fails, `aht20_getData` returns `ERR` with the
caller's output storage never accessed (modelled: both output fields stay
`none`). -/
theorem C9_no_output_on_failure (rx : Frame)
    (h : bitCheckLow rx.b0 AHT20_Flag_CAL = true ∨
         bitCheckHigh rx.b0 AHT20_Flag_BUSY = true ∨
         CRC8_Calc crc8_aht20 rx.toList ≠ 0x00) :
    aht20_getData rx = (.ERR, ⟨none, none⟩) := by
  rcases h with h | h | h
  · exact aht20_getData_err_status rx (by simp [h])
  · exact aht20_getData_err_status rx (by simp [h])
  · exact aht20_getData_err_crc rx h

/-- Witness for C9 at the all-zero (not-calibrated) frame. -/
theorem C9_no_output_on_failure_witness :
    bitCheckLow (frameZero).b0 AHT20_Flag_CAL = true ∧
    aht20_getData frameZero = (.ERR, ⟨none, none⟩) :=
  ⟨by decide, C9_no_output_on_failure frameZero (Or.inl (by decide))⟩

/-- Claim C10, confirmed: for every well-formed frame the raw temperature
and raw humidity are below `2^20`, and on every `OK` return the stored
temperature lies in `[-50, 150)` °C and the stored humidity in `[0, 100)` %,
with no clamping performed. -/
theorem C10_ranges (rx : Frame) (h : rx.Wf) :
    AHT20_raw_temp rx < 2 ^ 20 ∧ AHT20_raw_humi rx < 2 ^ 20 ∧
    ((aht20_getData rx).1 = .OK →
      ∃ tq hq, (aht20_getData rx).2 = ⟨some tq, some hq⟩ ∧
        -50 ≤ tq ∧ tq < 150 ∧ 0 ≤ hq ∧ hq < 100) := by
  refine ⟨AHT20_raw_temp_lt rx, AHT20_raw_humi_lt rx h, ?_⟩
  intro hOK
  by_cases hs : (bitCheckHigh rx.b0 AHT20_Flag_BUSY || bitCheckLow rx.b0 AHT20_Flag_CAL) = true
  · rw [aht20_getData_err_status rx hs] at hOK
    simp at hOK
  · by_cases hc : CRC8_Calc crc8_aht20 rx.toList = 0
    · rw [aht20_getData_ok rx (by simpa using hs) hc]
      exact ⟨_, _, rfl,
        (AHT20_Temp_conv_range _ (AHT20_raw_temp_lt rx)).1,
        (AHT20_Temp_conv_range _ (AHT20_raw_temp_lt rx)).2,
        (AHT20_Humi_conv_range _ (AHT20_raw_humi_lt rx h)).1,
        (AHT20_Humi_conv_range _ (AHT20_raw_humi_lt rx h)).2⟩
    · rw [aht20_getData_err_crc rx hc] at hOK
      simp at hOK

/-- Witness for C10 at the all-255 frame. -/
theorem C10_ranges_witness :
    frameAllFF.Wf ∧
    (AHT20_raw_temp frameAllFF < 2 ^ 20 ∧ AHT20_raw_humi frameAllFF < 2 ^ 20 ∧
     ((aht20_getData frameAllFF).1 = .OK →
       ∃ tq hq, (aht20_getData frameAllFF).2 = ⟨some tq, some hq⟩ ∧
         -50 ≤ tq ∧ tq < 150 ∧ 0 ≤ hq ∧ hq < 100)) :=
  ⟨by decide, C10_ranges frameAllFF (by decide)⟩

end AHT20
